import Mathlib

/-!
A verification development for the arch-repo maintenance scripts
(`scripts/update_versions.py`, `scripts/generate_pkgbuilds.py`,
`scripts/generate_index.py`).

Modelling conventions:
* Python strings are modelled as `String` (with a `List Char` core where
  character-level reasoning is needed; a Python `str` is a sequence of
  characters, which is exactly `String.data`).
* The YAML configuration dictionaries are modelled as structures.  Optional
  YAML keys that every consumer reads through `dict.get(key, default)` are
  modelled as plain fields holding the post-default value (an absent
  `tag_prefix` is the empty string, an absent `only_stable` is `true`,
  an absent `checksum_verification` is `false`, absent list keys are `[]`).
* Network requests and the file system are modelled as explicit oracle
  parameters (`Network`, `LoadResult`, a `writeOk` flag, a directory
  listing), so every script entry point becomes a pure function of its
  oracles.
-/

namespace ArchRepo

set_option maxRecDepth 4000

/-! ## Version normalizer (`scripts/update_versions.py`, `normalize_version`) -/

/-- Step 1 of `normalize_version`: `if tag_prefix and version.startswith(tag_prefix):
version = version[len(tag_prefix):]`.  The Python truthiness test on the
prefix is the emptiness test. -/
def stripTagPrefix (version tag_prefix : List Char) : List Char :=
  if tag_prefix.isEmpty then version
  else if tag_prefix.isPrefixOf version then version.drop tag_prefix.length
  else version

/-- Step 2 of `normalize_version`: `version = re.sub(r'^v?', '', version)`,
which deletes a single leading `v` when present (the regex is anchored and
matches at most one character). -/
def stripLeadingV (s : List Char) : List Char :=
  match s with
  | [] => []
  | c :: rest => if c = 'v' then rest else c :: rest

/-- Step 3 of `normalize_version`: `version = version.replace('-', '.')`.
The pattern is a single character, so the substring replacement is the
character map sending `-` to `.`. -/
def hyphenToDot (c : Char) : Char :=
  if c = '-' then '.' else c

/-- Character-level core of `normalize_version`: the three statements of the
Python function applied in order. -/
def normalizeChars (version tag_prefix : List Char) : List Char :=
  (stripLeadingV (stripTagPrefix version tag_prefix)).map hyphenToDot

/-- `normalize_version` from `scripts/update_versions.py`.  The Python
default argument `tag_prefix=""` is passed explicitly at call sites. -/
def normalize_version (version : String) ( tag_prefix : String) : String :=
  String.mk (normalizeChars version.data tag_prefix.data)

/-- The normalizer as section 4.1 of the spec words it, for the refinement
claim: (1) if the string starts with the tag prefix, remove exactly that
prefix; (2) remove a single leading `v` if present; (3) replace every
hyphen with a dot.  (The spec's step 1 has no emptiness guard.) -/
def normalizeSpecChars (version tag_prefix : List Char) : List Char :=
  ((if tag_prefix.isPrefixOf version then version.drop tag_prefix.length
    else version) |> stripLeadingV).map hyphenToDot

/-- String-level packaging of `normalizeSpecChars`. -/
def normalize_version_spec (version : String) ( tag_prefix : String) : String :=
  String.mk (normalizeSpecChars version.data tag_prefix.data)

/-! ## Data model (`packages.yaml` records, section 3 of the spec) -/

/-- The `upstream` sub-dictionary of a package record.  `type` selects the
variant; the github fields and the gcs fields are both present (unused ones
are read only by the matching variant, mirroring the untyped Python dict).
Optional keys are stored post-default (see the module docstring). -/
structure UpstreamSpec where
  type : String
  repo : String
  tag_prefix : String
  only_stable : Bool
  asset_pattern : String
  bucket_url : String
  version_endpoint : String
  platform_name : String
  checksum_verification : Bool
deriving DecidableEq

/-- One entry of the `packages:` mapping. -/
structure PackageData where
  version : String
  pkgrel : Nat
  description : String
  url : String
  license : String
  architectures : List String
  depends : List String
  optdepends : List String
  makedepends : List String
  provides : List String
  conflicts : List String
  upstream : UpstreamSpec
deriving DecidableEq

/-! ## Upstream checker (`scripts/update_versions.py`) -/

/-- The failure modes of `make_request`: transport errors and non-2xx
responses (both `URLError`/`HTTPError`, re-raised by `make_request`), and a
body the caller cannot parse (`json.loads`/key errors). -/
inductive FetchError where
  | network
  | status (code : Nat)
  | malformedBody
deriving DecidableEq

/-- The parsed JSON body used by `check_github_release`: `tag_name` and
`prerelease` (with `data.get('prerelease', False)` already applied).  A body
missing `tag_name` is a `FetchError.malformedBody`. -/
structure GithubRelease where
  tag_name : String
  prerelease : Bool
deriving DecidableEq

/-- The network oracle: what the GitHub latest-release request for a given
repo and the GCS GET for a given url return during this run. -/
structure Network where
  github : String → Except FetchError GithubRelease
  gcs : String → Except FetchError String

/-- `check_github_release`: every raised error is caught by the
`except Exception` handler and becomes `None`; a prerelease is skipped when
`only_stable`; otherwise the tag is normalized with the configured prefix. -/
def check_github_release (net : Network) (repo : String)
    ( tag_prefix : String) (only_stable : Bool) : Option String :=
  match net.github repo with
  | Except.error _ => none
  | Except.ok data =>
    if only_stable && data.prerelease then none
    else some (normalize_version data.tag_name tag_prefix)

/-- `check_gcs_version`: fetch `bucket_url/version_endpoint`, strip the
body, normalize with no prefix; every raised error becomes `None`. -/
def check_gcs_version (net : Network) (bucket_url version_endpoint : String) :
    Option String :=
  match net.gcs (bucket_url ++ "/" ++ version_endpoint) with
  | Except.error _ => none
  | Except.ok response => some (normalize_version response.trim "")

/-- The `if/elif/else` dispatch inside `update_package_version` that
computes `new_version` (the unknown-type branch returns early in Python
with the same `(current, False)` result the `None` case produces). -/
def dispatch_check (net : Network) (u : UpstreamSpec) : Option String :=
  if u.type = "github" then
    check_github_release net u.repo ( UpstreamSpec.tag_prefix u) u.only_stable
  else if u.type = "gcs" then
    check_gcs_version net u.bucket_url u.version_endpoint
  else none

/-- `update_package_version`: returns `(new_version, was_updated)`. -/
def update_package_version (net : Network) (package_name : String)
    (package_data : PackageData) : String × Bool :=
  let current_version := package_data.version
  match dispatch_check net package_data.upstream with
  | none => (current_version, false)
  | some new_version =>
    if new_version ≠ current_version then (new_version, true)
    else (current_version, false)

/-- The in-place mutation `main` performs on an updated record:
`version ← new_version`, `pkgrel ← 1`, all other fields untouched. -/
def set_version_reset_pkgrel (d : PackageData) (new_version : String) : PackageData :=
  ⟨new_version, 1, d.description, d.url, d.license, d.architectures, d.depends,
   d.optdepends, d.makedepends, d.provides, d.conflicts, d.upstream⟩

/-- Effect of one iteration of `main`'s update loop on one record. -/
def apply_update (package_data : PackageData) (result : String × Bool) : PackageData :=
  if result.2 then set_version_reset_pkgrel package_data result.1 else package_data

/-- `main`'s update loop over `packages.items()` (a Python dict iterates in
insertion order, so the mapping is a list of key-record pairs).  Returns the
final records and the `updated_packages` name list. -/
def run_updates (net : Network) :
    List (String × PackageData) → List (String × PackageData) × List String
  | [] => ([], [])
  | (package_name, package_data) :: rest =>
    let result := update_package_version net package_name package_data
    let restResult := run_updates net rest
    ((package_name, apply_update package_data result) :: restResult.1,
     if result.2 then package_name :: restResult.2 else restResult.2)

/-- The per-entry effect of the loop, for stating frame properties. -/
def process_entry (net : Network) (p : String × PackageData) : String × PackageData :=
  (p.1, apply_update p.2 (update_package_version net p.1 p.2))

/-- The write-back at the end of `main`: the whole configuration is dumped
in one operation iff `updated_packages` is nonempty (`none` = the file is
left untouched). -/
def update_versions_write (net : Network) (packages : List (String × PackageData)) :
    Option (List (String × PackageData)) :=
  if (run_updates net packages).2.isEmpty then none
  else some (run_updates net packages).1

/-- How `main` obtained the configuration: the file was missing, it failed
to parse, or it yielded a package list (`config.get('packages', {})` turns
an absent key into the empty list). -/
inductive LoadResult where
  | missing
  | unparseable
  | ok (packages : List (String × PackageData))

/-- Exit code of `scripts/update_versions.py` `main`: 1 for a missing or
unparseable configuration, 0 for an empty package list, and — when at least
one record changed — 1 if the write-back raised (`writeOk = false`),
otherwise 0. -/
def update_versions_main (load : LoadResult) (net : Network) (writeOk : Bool) : Nat :=
  match load with
  | LoadResult.missing => 1
  | LoadResult.unparseable => 1
  | LoadResult.ok packages =>
    if packages.isEmpty then 0
    else if (run_updates net packages).2.isEmpty then 0
    else if writeOk then 0 else 1

/-! ## PKGBUILD generator (`scripts/generate_pkgbuilds.py`) -/

/-- `format_array`: renders a Python list as a bash array literal.  The
empty list is `()`, a singleton is inline, two or more elements get one
quoted element per line with every line prefixed by `indent` spaces.
Python's default `indent=0` is passed explicitly at call sites. -/
def format_array (items : List String) (indent : Nat) : String :=
  match items with
  | [] => "()"
  | [item] => "(\x27" ++ item ++ "\x27)"
  | _ =>
    String.intercalate "\n"
      (("(" :: (items.map (fun item => "  \x27" ++ item ++ "\x27") ++ [")"])).map
        (fun line => String.mk (List.replicate indent ' ') ++ line))

/-- The Python slice `s[1:-1]` used on the `arch=` line. -/
def sliceOuter (s : String) : String := (s.drop 1).dropRight 1

/-- Everything `generate_github_pkgbuild` emits before the asset-download
`curl` line (header fields, array fields, and the start of `prepare()`). -/
def github_header (package_name : String) (data : PackageData) : String :=
  "# Maintainer: Tetarus\npkgname=" ++ package_name
    ++ "\npkgver=" ++ data.version
    ++ "\npkgrel=" ++ toString data.pkgrel
    ++ "\npkgdesc=\"" ++ data.description
    ++ "\"\narch=(" ++ sliceOuter (format_array data.architectures 0)
    ++ ")\nurl=\"" ++ data.url
    ++ "\"\nlicense=(\x27" ++ data.license
    ++ "\x27)\nprovides=" ++ format_array data.provides 0
    ++ "\nconflicts=" ++ format_array data.conflicts 0
    ++ "\ndepends=" ++ format_array data.depends 0
    ++ "\noptdepends=" ++ format_array data.optdepends 0
    ++ "\nmakedepends=" ++ format_array data.makedepends 0
    ++ "\noptions=(!debug)\n\nprepare() \x7b\n  cd \"$\x7bsrcdir\x7d\"\n\n  local ver=\"$\x7bpkgver\x7d\"\n  local tag=\""
    ++ UpstreamSpec.tag_prefix data.upstream
    ++ "$\x7bver\x7d\"\n\n  local url=\"$(curl -fsSL \"https://api.github.com/repos/"
    ++ data.upstream.repo
    ++ "/releases/tags/$\x7btag\x7d\" \\\n    | jq -r \x27.assets[] | select(.name | contains(\""
    ++ data.upstream.asset_pattern
    ++ "\")) | .browser_download_url\x27 \\\n    | head -n1)\"\n\n  if [[ -z \"$url\" ]]; then\n    error \"Failed to find download URL for version $\x7bver\x7d\"\n    return 1\n  fi\n\n  "

/-- The template text between the asset-download line and the install
line of `generate_github_pkgbuild` (extraction and the start of
`package()`). -/
def github_between : String :=
  "\n  tar -xzf \"codex.tar.gz\"\n\x7d\n\npackage() \x7b\n  cd \"$\x7bsrcdir\x7d\"\n\n  "

/-- Closing text of the github template. -/
def github_footer : String := "\n\x7d\n"

/-- `generate_github_pkgbuild`: the f-string template of the Python
function, split at the two lines the claims inspect. -/
def generate_github_pkgbuild (package_name : String) (data : PackageData) : String :=
  github_header package_name data
    ++ "curl -fL \"$url\" -o \"codex.tar.gz\""
    ++ github_between
    ++ ("install -Dm755 \"codex-" ++ data.upstream.asset_pattern ++ "\" \"$pkgdir/usr/bin/codex\"")
    ++ github_footer

/-- Python `str.title()` restricted to ASCII letters: the first letter of
every run of letters is uppercased, the rest are lowercased. -/
def pyTitleAux : Bool → List Char → List Char
  | _, [] => []
  | prevAlpha, c :: rest =>
    if c.isAlpha then
      (if prevAlpha then c.toLower else c.toUpper) :: pyTitleAux true rest
    else c :: pyTitleAux false rest

/-- String packaging of `pyTitleAux`. -/
def pyTitle (s : String) : String := String.mk (pyTitleAux false s.data)

/-- The checksum-verification block of `generate_gcs_pkgbuild`
(`checksum_verification: true`). -/
def gcs_checksum_code (platform_name : String) : String :=
  "\n  # Download manifest to get checksum\n  curl -fsSL -o manifest.json \"$\x7b_gcs_bucket\x7d/$\x7bversion\x7d/manifest.json\"\n\n  # Extract checksum for "
    ++ platform_name
    ++ " platform\n  local expected_checksum\n  if command -v jq >/dev/null 2>&1; then\n    expected_checksum=$(jq -r \x27.platforms[\""
    ++ platform_name
    ++ "\"].checksum // empty\x27 manifest.json)\n  else\n    # Fallback: extract checksum using bash regex\n    local json=$(cat manifest.json | tr -d \x27\\n\\r\\t\x27 | sed \x27s/ \\+/ /g\x27)\n    if [[ $json =~ \\\""
    ++ platform_name
    ++ "\\\"[^\x7d]*\\\"checksum\\\"[[:space:]]*:[[:space:]]*\\\"([a-f0-9]\x7b64\x7d)\\\" ]]; then\n      expected_checksum=\"$\x7bBASH_REMATCH[1]\x7d\"\n    fi\n  fi\n\n  if [ -z \"$expected_checksum\" ] || [[ ! \"$expected_checksum\" =~ ^[a-f0-9]\x7b64\x7d$ ]]; then\n    error \"Failed to extract valid checksum for "
    ++ platform_name
    ++ " platform\"\n    return 1\n  fi\n\n  msg \"Expected checksum: $expected_checksum\"\n\n  # Download the binary\n  curl -fsSL -o \"claude\" \"$\x7b_gcs_bucket\x7d/$\x7bversion\x7d/"
    ++ platform_name
    ++ "/claude\"\n\n  # Verify checksum\n  local actual_checksum=$(sha256sum claude | cut -d\x27 \x27 -f1)\n  if [ \"$actual_checksum\" != \"$expected_checksum\" ]; then\n    error \"Checksum verification failed\"\n    error \"Expected: $expected_checksum\"\n    error \"Actual:   $actual_checksum\"\n    return 1\n  fi\n\n  msg \"Checksum verification successful\""

/-- The plain download block of `generate_gcs_pkgbuild`
(`checksum_verification: false`). -/
def gcs_download_code (platform_name : String) : String :=
  "\n  # Download the binary\n  curl -fsSL -o \"claude\" \"$\x7b_gcs_bucket\x7d/$\x7bversion\x7d/"
    ++ platform_name
    ++ "/claude\""

/-- The generated license notice of `generate_gcs_pkgbuild`, emitted when
the configured license is the literal `custom`. -/
def gcs_license_section (package_name : String) (url : String) : String :=
  "\n  # Create a simple license file since it\x27s proprietary\n  install -Dm644 /dev/stdin \"$pkgdir/usr/share/licenses/$pkgname/LICENSE\" << \x27EOF\x27\n"
    ++ pyTitle (package_name.replace "-bin" "")
    ++ " is proprietary software.\nFor terms of service, visit: "
    ++ url
    ++ "\nEOF"

/-- `generate_gcs_pkgbuild`: the gcs f-string template of the Python
function. -/
def generate_gcs_pkgbuild (package_name : String) (data : PackageData) : String :=
  let upstream := data.upstream
  let checksum_code :=
    if upstream.checksum_verification then gcs_checksum_code upstream.platform_name
    else gcs_download_code upstream.platform_name
  let license_section :=
    if data.license = "custom" then gcs_license_section package_name data.url
    else ""
  "# Maintainer: Tetarus\npkgname=" ++ package_name
    ++ "\npkgver=" ++ data.version
    ++ "\npkgrel=" ++ toString data.pkgrel
    ++ "\npkgdesc=\"" ++ data.description
    ++ "\"\narch=(" ++ sliceOuter (format_array data.architectures 0)
    ++ ")\nurl=\"" ++ data.url
    ++ "\"\nlicense=(\x27" ++ data.license
    ++ "\x27)\ndepends=" ++ format_array data.depends 0
    ++ "\nprovides=" ++ format_array data.provides 0
    ++ "\nconflicts=" ++ format_array data.conflicts 0
    ++ "\nsource=()\nsha256sums=()\noptions=(!strip !debug)\n\n_gcs_bucket=\""
    ++ upstream.bucket_url
    ++ "\"\n\nprepare() \x7b\n  cd \"$srcdir\"\n\n  # Get current version\n  local version=\"$\x7bpkgver\x7d\"\n  msg \"Downloading "
    ++ pyTitle package_name
    ++ " version $version\"\n"
    ++ checksum_code
    ++ "\n\n  chmod +x \"claude\"\n\x7d\n\npackage() \x7b\n  cd \"$srcdir\"\n\n  # Install the binary\n  install -Dm755 \"claude\" \"$pkgdir/usr/bin/claude\"\n"
    ++ license_section
    ++ "\n\x7d\n"

/-- `generate_pkgbuild`: dispatch on `upstream['type']`; an unsupported
type raises `ValueError(f"Unsupported upstream type: {...}")`, modelled as
`Except.error`. -/
def generate_pkgbuild (package_name : String) (data : PackageData) : Except String String :=
  if data.upstream.type = "github" then
    Except.ok (generate_github_pkgbuild package_name data)
  else if data.upstream.type = "gcs" then
    Except.ok (generate_gcs_pkgbuild package_name data)
  else
    Except.error ("Unsupported upstream type: " ++ data.upstream.type)

/-- The generation loop of `generate_pkgbuilds.py` `main`: per package,
try to generate; on failure log and `continue`; on success write
`pkgbuilds/{name}/PKGBUILD`.  Returns the (name, content) pairs written. -/
def generate_all : List (String × PackageData) → List (String × String)
  | [] => []
  | (package_name, package_data) :: rest =>
    match generate_pkgbuild package_name package_data with
    | Except.ok content => (package_name, content) :: generate_all rest
    | Except.error _ => generate_all rest

/-- Exit code of `scripts/generate_pkgbuilds.py` `main`: 1 for a missing or
unparseable configuration and for an empty package mapping; otherwise 0
(per-package generation or write failures only log and continue). -/
def generate_pkgbuilds_main (load : LoadResult) : Nat :=
  match load with
  | LoadResult.missing => 1
  | LoadResult.unparseable => 1
  | LoadResult.ok packages => if packages.isEmpty then 1 else 0

/-! ## Index generator (`scripts/generate_index.py`, `get_package_files`) -/

/-- One directory entry of the output directory, as `get_package_files`
observes it: name, regular-file flag, `st_size` and `st_mtime`.  (The
Python mtime is a float used only for ordering; it is modelled as `Nat`.) -/
structure FileEntry where
  name : String
  is_file : Bool
  size : Nat
  mtime : Nat
deriving DecidableEq

/-- Whether a directory-entry name matches the glob pattern
`f"{package_name}-*.pkg.tar.zst"`: the literal prefix, then `*` (any
characters of the entry name), then the literal suffix. -/
def globMatches (package_name file_name : String) : Bool :=
  (package_name.data ++ ['-']).isPrefixOf file_name.data
    && (".pkg.tar.zst".data).isSuffixOf (file_name.data.drop (package_name.data.length + 1))

/-- Python's default ordering on `(name, size, mtime)` tuples:
lexicographic. -/
def tupleLE (a b : String × Nat × Nat) : Prop :=
  a.1 < b.1 ∨ (a.1 = b.1 ∧ (a.2.1 < b.2.1 ∨ (a.2.1 = b.2.1 ∧ a.2.2 ≤ b.2.2)))

instance : DecidableRel tupleLE := by
  intro a b
  unfold tupleLE
  infer_instance

instance : IsTotal (String × Nat × Nat) tupleLE := by
  constructor
  intro a b
  rcases lt_trichotomy a.1 b.1 with h | h | h
  · exact Or.inl (Or.inl h)
  · rcases lt_trichotomy a.2.1 b.2.1 with h2 | h2 | h2
    · exact Or.inl (Or.inr ⟨h, Or.inl h2⟩)
    · rcases le_total a.2.2 b.2.2 with h3 | h3
      · exact Or.inl (Or.inr ⟨h, Or.inr ⟨h2, h3⟩⟩)
      · exact Or.inr (Or.inr ⟨h.symm, Or.inr ⟨h2.symm, h3⟩⟩)
    · exact Or.inr (Or.inr ⟨h.symm, Or.inl h2⟩)
  · exact Or.inr (Or.inl h)

instance : IsTrans (String × Nat × Nat) tupleLE := by
  constructor
  intro a b c hab hbc
  rcases hab with h1 | ⟨e1, h1⟩
  · rcases hbc with h2 | ⟨e2, _⟩
    · exact Or.inl (h1.trans h2)
    · exact Or.inl (lt_of_lt_of_eq h1 e2)
  · rcases hbc with h2 | ⟨e2, h2⟩
    · exact Or.inl (lt_of_eq_of_lt e1 h2)
    · refine Or.inr ⟨e1.trans e2, ?_⟩
      rcases h1 with h1 | ⟨f1, h1⟩
      · rcases h2 with h2 | ⟨f2, _⟩
        · exact Or.inl (h1.trans h2)
        · exact Or.inl (lt_of_lt_of_eq h1 f2)
      · rcases h2 with h2 | ⟨f2, h2⟩
        · exact Or.inl (lt_of_eq_of_lt f1 h2)
        · exact Or.inr ⟨f1.trans f2, h1.trans h2⟩

/-- `get_package_files`: keep the entries whose names match the glob
pattern and are regular files, project out `(name, st_size, st_mtime)`, and
sort the tuples (Python `sorted`). -/
def get_package_files (entries : List FileEntry) (package_name : String) :
    List (String × Nat × Nat) :=
  List.insertionSort tupleLE
    ((entries.filter (fun e => globMatches package_name e.name && e.is_file)).map
      (fun e => (e.name, e.size, e.mtime)))

/-! ## Concrete data used by witnesses and counterexamples -/

/-- A github upstream with no tag prefix. -/
def github_spec : UpstreamSpec :=
  ⟨"github", "owner/codex", "", true, "linux-x64", "", "", "", false⟩

/-- A second github upstream, for a different repo. -/
def github_spec2 : UpstreamSpec :=
  ⟨"github", "other/tool", "", true, "tool-", "", "", "", false⟩

/-- A gcs upstream. -/
def gcs_spec : UpstreamSpec :=
  ⟨"gcs", "", "", true, "", "https://storage.example.com/bucket", "latest.txt", "linux-x64", false⟩

/-- An unsupported upstream type. -/
def ftp_spec : UpstreamSpec :=
  ⟨"ftp", "", "", true, "", "", "", "", false⟩

/-- A package at version 1.0.0 with a deliberately non-1 `pkgrel`. -/
def pkg_witness : PackageData :=
  ⟨"1.0.0", 5, "desc", "https://example.com", "MIT", ["x86_64"], [], [], [], [], [],
   github_spec⟩

/-- A second github package. -/
def pkg_other : PackageData :=
  ⟨"1.0.0", 2, "other", "https://example.org", "MIT", ["x86_64"], [], [], [], [], [],
   github_spec2⟩

/-- A gcs package with a custom license. -/
def pkg_gcs : PackageData :=
  ⟨"2.0.0", 1, "gcs package", "https://example.net", "custom", ["x86_64"], [], [], [], [], [],
   gcs_spec⟩

/-- A package with an unsupported upstream type. -/
def pkg_ftp : PackageData :=
  ⟨"1.0", 1, "ftp package", "https://example.edu", "MIT", ["any"], [], [], [], [], [],
   ftp_spec⟩

/-- A network on which every github repo reports stable release `v1.1.0`
and every gcs fetch fails. -/
def net_new : Network :=
  ⟨fun _ => Except.ok ⟨"v1.1.0", false⟩, fun _ => Except.error FetchError.network⟩

/-- A network on which `owner/codex` hits a transport error while every
other repo reports stable release `v2.0.0`; gcs fetches return a non-2xx
status. -/
def net_mixed : Network :=
  ⟨fun repo =>
      if repo = "owner/codex" then Except.error FetchError.network
      else Except.ok ⟨"v2.0.0", false⟩,
   fun _ => Except.error (FetchError.status 500)⟩

/-- A one-package configuration. -/
def cfg_one : List (String × PackageData) := [("codex", pkg_witness)]

/-- A directory listing holding one regular file `foo-1.0`, which matches
`foo-*` but not `foo-*.pkg.tar.zst`. -/
def entries_demo : List FileEntry := [⟨"foo-1.0", true, 10, 5⟩]

/-! ## Theorems: version normalizer (C2, C3) -/

theorem normalizeChars_eq_spec (version tag_prefix : List Char) :
    normalizeChars version tag_prefix = normalizeSpecChars version tag_prefix := by
  unfold normalizeChars normalizeSpecChars stripTagPrefix
  rcases tag_prefix with _ | ⟨c, rest⟩
  · simp
  · simp [List.isEmpty]

theorem normalizeChars_map_hyphenToDot (version tag_prefix : List Char) :
    (normalizeChars version tag_prefix).map hyphenToDot
      = normalizeChars version tag_prefix := by
  unfold normalizeChars
  rw [List.map_map]
  congr 1
  funext c
  by_cases hc : c = '-' <;> simp [hyphenToDot, hc, Function.comp]

/-- C2: for every raw version string and tag prefix the normalizer performs
exactly the spec's three steps in order (it agrees everywhere with the
function transcribed from the spec's wording, and it is a total function,
so it never errors); moreover the three worked examples of the spec hold. -/
theorem C2_normalize_steps :
    (∀ (version tag_prefix : String),
        normalize_version version tag_prefix
          = normalize_version_spec version tag_prefix)
    ∧ normalize_version "codex-v1.2.3" "codex-" = "1.2.3"
    ∧ normalize_version "v2.0.0" "" = "2.0.0"
    ∧ normalize_version "1-2-3" "" = "1.2.3" := by
  refine ⟨?_, by decide, by decide, by decide⟩
  intro v p
  unfold normalize_version normalize_version_spec
  rw [normalizeChars_eq_spec]

/-- C3 counterexample: the normalizer is not idempotent on all inputs.  With
no prefix, `"vv2"` normalizes to `"v2"`, which normalizes again to `"2"`;
with prefix `"a"`, `"aa"` normalizes to `"a"`, which normalizes again to
the empty string. -/
theorem C3_counterexample :
    (¬ normalize_version (normalize_version "vv2" "") ""
        = normalize_version "vv2" "")
    ∧ ¬ normalize_version (normalize_version "aa" "a") "a"
        = normalize_version "aa" "a" := by
  constructor <;> decide

/-- C3 amended: a normalizer output is a fixed point of the normalizer
provided it does not itself start with the (nonempty) tag prefix and does
not start with the letter `v`.  (Outputs never contain hyphens, so the
third step is always idempotent; the counterexamples show both extra
conditions are necessary.) -/
theorem C3_idempotent_amended (version : String) ( tag_prefix : String)
    (h1 : tag_prefix.data.isEmpty = true
        ∨ tag_prefix.data.isPrefixOf (normalize_version version tag_prefix).data = false)
    (h2 : (normalize_version version tag_prefix).data.head? ≠ some 'v') :
    normalize_version (normalize_version version tag_prefix) tag_prefix
      = normalize_version version tag_prefix := by
  apply String.ext
  show normalizeChars (normalize_version version tag_prefix).data tag_prefix.data
      = (normalize_version version tag_prefix).data
  have hstrip : stripTagPrefix (normalize_version version tag_prefix).data tag_prefix.data
      = (normalize_version version tag_prefix).data := by
    unfold stripTagPrefix
    rcases h1 with h1 | h1
    · simp [h1]
    · simp [h1]
  have hv : stripLeadingV (normalize_version version tag_prefix).data
      = (normalize_version version tag_prefix).data := by
    unfold stripLeadingV
    rcases hd : (normalize_version version tag_prefix).data with _ | ⟨c, rest⟩
    · rfl
    · have hc : c ≠ 'v' := by
        intro hcv
        rw [hd, hcv] at h2
        simp at h2
      simp [hc]
  unfold normalizeChars
  rw [hstrip, hv]
  show ((normalize_version version tag_prefix).data).map hyphenToDot = _
  have hdata : (normalize_version version tag_prefix).data
      = normalizeChars version.data tag_prefix.data := rfl
  rw [hdata, normalizeChars_map_hyphenToDot]

/-- Witness for the amended C3 at a concrete input: `"a-b"` with no prefix
normalizes to `"a.b"`, and normalizing that again is the identity. -/
theorem C3_idempotent_amended_witness :
    normalize_version (normalize_version "a-b" "") "" = normalize_version "a-b" "" :=
  C3_idempotent_amended "a-b" "" (Or.inl (by decide)) (by decide)

/-! ## Theorems: version updater (C1, C4, C5, C6) -/

/-- C1: the per-package update sets `pkgrel` to 1 exactly when the checker
returned a version different from the recorded one (in which case `version`
becomes the new value, whatever `pkgrel` was before); on checker failure or
an equal version the record is untouched. -/
theorem C1_update_semantics (net : Network) (package_name : String)
    (package_data : PackageData) :
    ((update_package_version net package_name package_data).2 = true ↔
        (∃ nv, dispatch_check net package_data.upstream = some nv
          ∧ nv ≠ package_data.version))
    ∧ (∀ nv, dispatch_check net package_data.upstream = some nv →
        nv ≠ package_data.version →
        apply_update package_data (update_package_version net package_name package_data)
          = set_version_reset_pkgrel package_data nv
        ∧ (apply_update package_data
            (update_package_version net package_name package_data)).version = nv
        ∧ (apply_update package_data
            (update_package_version net package_name package_data)).pkgrel = 1)
    ∧ (dispatch_check net package_data.upstream = none →
        apply_update package_data (update_package_version net package_name package_data)
          = package_data)
    ∧ (dispatch_check net package_data.upstream = some package_data.version →
        apply_update package_data (update_package_version net package_name package_data)
          = package_data) := by
  refine ⟨?_, ?_, ?_, ?_⟩
  · unfold update_package_version
    cases hd : dispatch_check net package_data.upstream with
    | none => simp
    | some v =>
      by_cases hv : v = package_data.version
      · subst hv
        simp
      · simp [hv]
  · intro nv hnv hne
    have hu : update_package_version net package_name package_data = (nv, true) := by
      unfold update_package_version
      rw [hnv]
      simp [hne]
    rw [hu]
    exact ⟨rfl, rfl, rfl⟩
  · intro h
    have hu : update_package_version net package_name package_data
        = (package_data.version, false) := by
      unfold update_package_version
      rw [h]
    rw [hu]
    rfl
  · intro h
    have hu : update_package_version net package_name package_data
        = (package_data.version, false) := by
      unfold update_package_version
      rw [h]
      simp
    rw [hu]
    rfl

/-- Witness for C1 at the spec's worked example: current version `1.0.0`,
prior `pkgrel` 5, checker result `1.1.0`; the record becomes version
`1.1.0` with `pkgrel` 1. -/
theorem C1_witness :
    (apply_update pkg_witness (update_package_version net_new "codex" pkg_witness)).version
      = "1.1.0"
    ∧ (apply_update pkg_witness (update_package_version net_new "codex" pkg_witness)).pkgrel
      = 1
    ∧ pkg_witness.pkgrel = 5 := by
  have h := (C1_update_semantics net_new "codex" pkg_witness).2.1 "1.1.0"
    (by decide) (by decide)
  exact ⟨h.2.1, h.2.2, by decide⟩

theorem run_updates_append (net : Network) (xs ys : List (String × PackageData)) :
    run_updates net (xs ++ ys)
      = ((run_updates net xs).1 ++ (run_updates net ys).1,
         (run_updates net xs).2 ++ (run_updates net ys).2) := by
  induction xs with
  | nil => simp [run_updates]
  | cons p rest ih =>
    obtain ⟨n, d⟩ := p
    by_cases hr : (update_package_version net n d).2 <;>
      simp [run_updates, List.cons_append, ih, hr]

/-- C4: a checker failure is an explicit `none` (for every failure kind),
and the main loop leaves the failing package's record untouched while
processing the packages before and after it exactly as it would anyway. -/
theorem C4_failure_isolated (net : Network) (e : FetchError) :
    (∀ (repo tag_prefix : String) (only_stable : Bool),
        net.github repo = Except.error e →
        check_github_release net repo tag_prefix only_stable = none)
    ∧ (∀ (bucket_url version_endpoint : String),
        net.gcs (bucket_url ++ "/" ++ version_endpoint) = Except.error e →
        check_gcs_version net bucket_url version_endpoint = none)
    ∧ (∀ (pre post : List (String × PackageData)) (package_name : String)
        (package_data : PackageData),
        dispatch_check net package_data.upstream = none →
        run_updates net (pre ++ (package_name, package_data) :: post)
          = ((run_updates net pre).1
              ++ (package_name, package_data) :: (run_updates net post).1,
             (run_updates net pre).2 ++ (run_updates net post).2)) := by
  refine ⟨?_, ?_, ?_⟩
  · intro repo tp os h
    unfold check_github_release
    rw [h]
  · intro bu ve h
    unfold check_gcs_version
    rw [h]
  · intro pre post package_name package_data hd
    have hu : update_package_version net package_name package_data
        = (package_data.version, false) := by
      unfold update_package_version
      rw [hd]
    have hmid : run_updates net ((package_name, package_data) :: post)
        = ((package_name, package_data) :: (run_updates net post).1,
           (run_updates net post).2) := by
      simp [run_updates, hu, apply_update]
    rw [run_updates_append, hmid]

/-- Witness for C4: on `net_mixed` the `owner/codex` request fails with a
transport error; the record is untouched and the following package is
still processed. -/
theorem C4_witness :
    check_github_release net_mixed "owner/codex" "" true = none
    ∧ check_gcs_version net_mixed "https://storage.example.com/bucket" "latest.txt" = none
    ∧ run_updates net_mixed [("codex", pkg_witness), ("tool", pkg_other)]
        = ((run_updates net_mixed []).1
            ++ ("codex", pkg_witness) :: (run_updates net_mixed [("tool", pkg_other)]).1,
           (run_updates net_mixed []).2 ++ (run_updates net_mixed [("tool", pkg_other)]).2) := by
  have h := C4_failure_isolated net_mixed FetchError.network
  have h2 := C4_failure_isolated net_mixed (FetchError.status 500)
  exact ⟨h.1 "owner/codex" "" true (by rfl),
    h2.2.1 "https://storage.example.com/bucket" "latest.txt" (by rfl),
    h.2.2 [] [("tool", pkg_other)] "codex" pkg_witness (by rfl)⟩

theorem update_snd_true_version_ne (net : Network) (n : String) (d : PackageData)
    (h : (update_package_version net n d).2 = true) :
    (update_package_version net n d).1 ≠ d.version := by
  unfold update_package_version at h ⊢
  cases hd : dispatch_check net d.upstream with
  | none =>
    rw [hd] at h
    simp at h
  | some v =>
    by_cases hv : v = d.version
    · subst hv
      rw [hd] at h
      simp at h
    · simp [hv]

theorem process_entry_ne_iff (net : Network) (p : String × PackageData) :
    process_entry net p ≠ p ↔ (update_package_version net p.1 p.2).2 = true := by
  constructor
  · intro hne
    cases hx : (update_package_version net p.1 p.2).2 with
    | true => rfl
    | false =>
      exfalso
      apply hne
      unfold process_entry apply_update
      rw [hx]
      simp
  · intro ht heq
    have hv := update_snd_true_version_ne net p.1 p.2 ht
    apply hv
    have h3 : (process_entry net p).2
        = set_version_reset_pkgrel p.2 (update_package_version net p.1 p.2).1 := by
      show apply_update p.2 (update_package_version net p.1 p.2) = _
      unfold apply_update
      rw [ht]
      simp
    have h2 : (process_entry net p).2.version = p.2.version := by rw [heq]
    rw [h3] at h2
    exact h2

theorem run_updates_fst (net : Network) (l : List (String × PackageData)) :
    (run_updates net l).1 = l.map (process_entry net) := by
  induction l with
  | nil => rfl
  | cons p rest ih =>
    obtain ⟨n, d⟩ := p
    simp [run_updates, ih, process_entry]

theorem run_updates_snd_empty_iff (net : Network) (l : List (String × PackageData)) :
    (run_updates net l).2.isEmpty = true ↔
      ∀ p ∈ l, (update_package_version net p.1 p.2).2 = false := by
  induction l with
  | nil => simp [run_updates]
  | cons p rest ih =>
    obtain ⟨n, d⟩ := p
    by_cases hx : (update_package_version net n d).2 = true
    · constructor
      · intro h
        exfalso
        simp [run_updates, hx] at h
      · intro h
        have hh := h (n, d) (List.mem_cons_self _ _)
        simp [hx] at hh
    · have hxf : (update_package_version net n d).2 = false := by
        cases hb : (update_package_version net n d).2
        · rfl
        · exact absurd hb hx
      simp [run_updates, hxf, ih, List.forall_mem_cons]

/-- C5: the configuration is serialized back (as one whole-config write)
iff at least one record changed during the run; the written value, when a
write happens, is the whole processed configuration. -/
theorem C5_write_iff_changed (net : Network) (packages : List (String × PackageData)) :
    (update_versions_write net packages ≠ none ↔
        ∃ p ∈ packages, process_entry net p ≠ p)
    ∧ (update_versions_write net packages = none
        ∨ update_versions_write net packages
            = some (packages.map (process_entry net))) := by
  constructor
  · constructor
    · intro hw
      by_cases he : (run_updates net packages).2.isEmpty
      · exfalso
        apply hw
        unfold update_versions_write
        rw [if_pos he]
      · have hnall : ¬ ∀ p ∈ packages, (update_package_version net p.1 p.2).2 = false := by
          intro hall
          exact he ((run_updates_snd_empty_iff net packages).2 hall)
        push_neg at hnall
        obtain ⟨p, hp, hsnd⟩ := hnall
        refine ⟨p, hp, ?_⟩
        have hsnd' : (update_package_version net p.1 p.2).2 = true := by
          cases hb : (update_package_version net p.1 p.2).2
          · exact absurd hb hsnd
          · rfl
        exact (process_entry_ne_iff net p).2 hsnd'
    · rintro ⟨p, hp, hne⟩
      have hsnd := (process_entry_ne_iff net p).1 hne
      have he : ¬ (run_updates net packages).2.isEmpty = true := by
        intro hb
        have hall := (run_updates_snd_empty_iff net packages).1 hb
        have hh := hall p hp
        simp [hsnd] at hh
      unfold update_versions_write
      rw [if_neg he]
      simp
  · by_cases he : (run_updates net packages).2.isEmpty
    · left
      unfold update_versions_write
      rw [if_pos he]
    · right
      unfold update_versions_write
      rw [if_neg he, run_updates_fst]

/-- C6 counterexample: a run on a well-parsed, nonempty configuration whose
version changed but whose write-back failed exits 1, although the
configuration file was neither missing nor unparseable and no per-package
check failed. -/
theorem C6_counterexample :
    update_versions_main (LoadResult.ok cfg_one) net_new false = 1
    ∧ LoadResult.ok cfg_one ≠ LoadResult.missing
    ∧ LoadResult.ok cfg_one ≠ LoadResult.unparseable :=
  ⟨by decide, fun h => LoadResult.noConfusion h, fun h => LoadResult.noConfusion h⟩

/-- C6 amended: the updater exits nonzero exactly for a missing or
unparseable configuration or a failed write-back of a changed
configuration; the PKGBUILD generator exits nonzero exactly for a missing
or unparseable configuration or an empty package mapping.  Per-package
check failures never make either exit code nonzero. -/
theorem update_versions_main_ok_ne_zero (net : Network) (writeOk : Bool)
    (packages : List (String × PackageData)) :
    update_versions_main (LoadResult.ok packages) net writeOk ≠ 0 ↔
      packages.isEmpty = false
      ∧ (run_updates net packages).2.isEmpty = false
      ∧ writeOk = false := by
  simp only [update_versions_main]
  by_cases h1 : packages.isEmpty = true
  · rw [if_pos h1]
    simp [h1]
  · have h1f : packages.isEmpty = false := by simpa using h1
    rw [if_neg h1]
    by_cases h2 : (run_updates net packages).2.isEmpty = true
    · rw [if_pos h2]
      simp [h2]
    · have h2f : (run_updates net packages).2.isEmpty = false := by simpa using h2
      rw [if_neg h2]
      by_cases h3 : writeOk = true
      · rw [if_pos h3]
        simp [h3]
      · have h3f : writeOk = false := by simpa using h3
        rw [if_neg h3]
        simp [h1f, h2f, h3f]

theorem C6_exit_codes_amended (load : LoadResult) (net : Network) (writeOk : Bool) :
    (update_versions_main load net writeOk ≠ 0 ↔
        load = LoadResult.missing ∨ load = LoadResult.unparseable
        ∨ (∃ packages, load = LoadResult.ok packages
            ∧ packages.isEmpty = false
            ∧ (run_updates net packages).2.isEmpty = false
            ∧ writeOk = false))
    ∧ (generate_pkgbuilds_main load ≠ 0 ↔
        load = LoadResult.missing ∨ load = LoadResult.unparseable
        ∨ load = LoadResult.ok []) := by
  cases load with
  | missing =>
    constructor
    · simp [update_versions_main]
    · simp [generate_pkgbuilds_main]
  | unparseable =>
    constructor
    · simp [update_versions_main]
    · simp [generate_pkgbuilds_main]
  | ok packages =>
    constructor
    · rw [update_versions_main_ok_ne_zero]
      constructor
      · rintro ⟨ha, hb, hc⟩
        exact Or.inr (Or.inr ⟨packages, rfl, ha, hb, hc⟩)
      · rintro (h | h | ⟨pkgs, hpk, ha, hb, hc⟩)
        · exact LoadResult.noConfusion h
        · exact LoadResult.noConfusion h
        · injection hpk with hinj
          subst hinj
          exact ⟨ha, hb, hc⟩
    · constructor
      · intro hgne
        right
        right
        by_cases h1 : packages.isEmpty = true
        · have hnil : packages = [] := by
            cases packages with
            | nil => rfl
            | cons a l => simp [List.isEmpty] at h1
          rw [hnil]
        · exfalso
          apply hgne
          simp only [generate_pkgbuilds_main]
          rw [if_neg h1]
      · rintro (h | h | h)
        · exact LoadResult.noConfusion h
        · exact LoadResult.noConfusion h
        · injection h with hinj
          subst hinj
          simp [generate_pkgbuilds_main]

/-! ## Theorems: PKGBUILD generator (C7, C8, C10) -/

theorem generate_all_append (xs ys : List (String × PackageData)) :
    generate_all (xs ++ ys) = generate_all xs ++ generate_all ys := by
  induction xs with
  | nil => rfl
  | cons p rest ih =>
    obtain ⟨n, d⟩ := p
    cases hg : generate_pkgbuild n d with
    | ok c => simp [generate_all, hg, ih]
    | error e => simp [generate_all, hg, ih]

/-- C7: a package whose upstream type is neither `github` nor `gcs` makes
`generate_pkgbuild` fail with the explicit "Unsupported upstream type"
error, no file is written for it, and every other package in the
configuration is still generated exactly as it would be anyway. -/
theorem C7_unsupported_type (package_name : String) (package_data : PackageData)
    (pre post : List (String × PackageData))
    (h1 : package_data.upstream.type ≠ "github")
    (h2 : package_data.upstream.type ≠ "gcs") :
    generate_pkgbuild package_name package_data
        = Except.error ("Unsupported upstream type: " ++ package_data.upstream.type)
    ∧ generate_all (pre ++ (package_name, package_data) :: post)
        = generate_all pre ++ generate_all post := by
  have hg : generate_pkgbuild package_name package_data
      = Except.error ("Unsupported upstream type: " ++ package_data.upstream.type) := by
    unfold generate_pkgbuild
    rw [if_neg h1, if_neg h2]
  refine ⟨hg, ?_⟩
  rw [generate_all_append]
  congr 1
  simp [generate_all, hg]

/-- Witness for C7: an `ftp` upstream between two supported packages fails
with the explicit error while both neighbours still generate. -/
theorem C7_witness :
    generate_pkgbuild "bad" pkg_ftp = Except.error "Unsupported upstream type: ftp"
    ∧ generate_all [("codex-bin", pkg_witness), ("bad", pkg_ftp), ("claude-bin", pkg_gcs)]
        = generate_all [("codex-bin", pkg_witness)] ++ generate_all [("claude-bin", pkg_gcs)] := by
  have h := C7_unsupported_type "bad" pkg_ftp
    [("codex-bin", pkg_witness)] [("claude-bin", pkg_gcs)] (by decide) (by decide)
  exact ⟨h.1.trans (congrArg Except.error (by decide)), h.2⟩

/-- C8: the list renderer emits the explicit empty marker for `[]`, a
single inline quoted element for a singleton, and — for two or more
elements — one quoted element per line, in order, between the opening and
closing markers (each line carrying the indent). -/
theorem C8_format_array (indent : Nat) :
    format_array [] indent = "()"
    ∧ (∀ x, format_array [x] indent = "(\x27" ++ x ++ "\x27)")
    ∧ (∀ x y rest, format_array (x :: y :: rest) indent
        = String.intercalate "\n"
            ((String.mk (List.replicate indent ' ') ++ "(")
              :: (((x :: y :: rest).map
                    (fun item => String.mk (List.replicate indent ' ') ++ "  \x27" ++ item ++ "\x27"))
                ++ [String.mk (List.replicate indent ' ') ++ ")"]))) := by
  refine ⟨rfl, fun x => rfl, fun x y rest => ?_⟩
  show String.intercalate "\n"
      (("(" :: ((x :: y :: rest).map (fun item => "  \x27" ++ item ++ "\x27") ++ [")"])).map
        (fun line => String.mk (List.replicate indent ' ') ++ line)) = _
  congr 1
  simp [List.map_cons, List.map_append, List.map_map, Function.comp,
    String.append_assoc]

/-- C10: for every package name and metadata, the github recipe's fetch
step saves the asset under the fixed name `codex.tar.gz` and its install
step installs the binary `codex-` + `asset_pattern` to the fixed path
`/usr/bin/codex`. -/
theorem C10_github_fixed_paths (package_name : String) (data : PackageData) :
    (∃ before after, generate_github_pkgbuild package_name data
        = before ++ "curl -fL \"$url\" -o \"codex.tar.gz\"" ++ after)
    ∧ (∃ before after, generate_github_pkgbuild package_name data
        = before
          ++ ("install -Dm755 \"codex-" ++ data.upstream.asset_pattern
                ++ "\" \"$pkgdir/usr/bin/codex\"")
          ++ after) := by
  constructor
  · refine ⟨github_header package_name data,
      github_between
        ++ ("install -Dm755 \"codex-" ++ data.upstream.asset_pattern
              ++ "\" \"$pkgdir/usr/bin/codex\"")
        ++ github_footer, ?_⟩
    unfold generate_github_pkgbuild
    simp [String.append_assoc]
  · refine ⟨github_header package_name data
        ++ "curl -fL \"$url\" -o \"codex.tar.gz\""
        ++ github_between,
      github_footer, ?_⟩
    unfold generate_github_pkgbuild
    simp [String.append_assoc]

/-! ## Theorems: index generator (C9) -/

theorem globMatches_iff (package_name file_name : String) :
    globMatches package_name file_name = true ↔
      ∃ mid, file_name.data
        = package_name.data ++ '-' :: (mid ++ ".pkg.tar.zst".data) := by
  unfold globMatches
  rw [Bool.and_eq_true, List.isPrefixOf_iff_prefix, List.isSuffixOf_iff_suffix]
  have hlen : package_name.data.length + 1 = (package_name.data ++ ['-']).length := by
    simp
  constructor
  · rintro ⟨⟨rest, hrest⟩, ⟨mid, hmid⟩⟩
    refine ⟨mid, ?_⟩
    rw [← hrest] at hmid
    rw [hlen, List.drop_left] at hmid
    rw [← hrest, ← hmid]
    simp
  · rintro ⟨mid, hm⟩
    constructor
    · exact ⟨mid ++ ".pkg.tar.zst".data, by rw [hm]; simp⟩
    · refine ⟨mid, ?_⟩
      rw [hm]
      have hsplit : package_name.data ++ '-' :: (mid ++ ".pkg.tar.zst".data)
          = (package_name.data ++ ['-']) ++ (mid ++ ".pkg.tar.zst".data) := by
        simp
      rw [hsplit, hlen, List.drop_left]

/-- C9 counterexample: a regular file `foo-1.0` matches the claim's pattern
`foo-*` (it starts with `foo-`) yet the index generator enumerates nothing,
because the code's glob is `foo-*.pkg.tar.zst`. -/
theorem C9_counterexample :
    get_package_files entries_demo "foo" = []
    ∧ ("foo".data ++ ['-']).isPrefixOf ("foo-1.0".data) = true
    ∧ entries_demo.all (fun e => e.is_file) = true
    ∧ entries_demo.map (fun e => e.name) = ["foo-1.0"] := by
  refine ⟨by decide, by decide, by decide, by decide⟩

/-- C9 amended: the index generator enumerates exactly the regular files of
the output directory whose names match `{package_name}-*.pkg.tar.zst`, and
lists them sorted by filename. -/
theorem C9_files_amended (entries : List FileEntry) (package_name : String) :
    (∀ t, t ∈ get_package_files entries package_name ↔
        ∃ e ∈ entries, e.is_file = true
          ∧ (∃ mid, e.name.data
              = package_name.data ++ '-' :: (mid ++ ".pkg.tar.zst".data))
          ∧ t = (e.name, e.size, e.mtime))
    ∧ List.Pairwise (fun a b : String × Nat × Nat => a.1 ≤ b.1)
        (get_package_files entries package_name) := by
  constructor
  · intro t
    unfold get_package_files
    rw [(List.perm_insertionSort tupleLE _).mem_iff]
    simp only [List.mem_map, List.mem_filter, Bool.and_eq_true]
    constructor
    · rintro ⟨e, ⟨he, hmatch, hfile⟩, rfl⟩
      exact ⟨e, he, hfile, (globMatches_iff _ _).1 hmatch, rfl⟩
    · rintro ⟨e, he, hfile, hmid, rfl⟩
      exact ⟨e, ⟨he, (globMatches_iff _ _).2 hmid, hfile⟩, rfl⟩
  · have hs := List.sorted_insertionSort tupleLE
      ((entries.filter (fun e => globMatches package_name e.name && e.is_file)).map
        (fun e => (e.name, e.size, e.mtime)))
    unfold get_package_files
    refine List.Pairwise.imp ?_ hs
    intro a b hab
    rcases hab with h | ⟨he, _⟩
    · exact le_of_lt h
    · exact le_of_eq he

end ArchRepo
